import Mathlib

/-!
Verification of the motion-control core (`src/control.c`) of mmlib.

The C file is a straight-line imperative program over a set of `static`
scalar variables, reading pure values from collaborator functions and
emitting commands to the motor driver.  We embed it shallowly:

* the static variables become the record `ControlState`;
* the collaborator readings of one tick become the record `Env`
  (each collaborator call returns the same value within a tick);
* machine floats are modelled as exact rationals (`ℚ`), and the C
  float-to-`int32_t` cast as truncation toward zero (`ratTrunc`);
* each C function becomes a Lean function from the pre-state to the
  post-state, paired with the list of calls it makes on the motor
  driver (`DriverCall`), in call order.
-/

set_option autoImplicit false

namespace Mmlib

/-- Truncation of a rational toward zero: the semantics of the implicit
C conversion from `float` to `int32_t` in `voltage_to_motor_pwm`. -/
def ratTrunc (q : ℚ) : ℤ := if 0 ≤ q then ⌊q⌋ else ⌈q⌉

/-- Snapshot of everything `control.c` reads from its collaborators during
one tick: wall-sensor errors, encoder speeds, gyro rate, supply voltage,
control constants, profile limits, the driver saturation counter, and the
compile-time constants of the build. -/
structure Env where
  get_side_sensors_close_error : ℚ
  get_side_sensors_far_error : ℚ
  get_front_sensors_error : ℚ
  get_diagonal_sensors_error : ℚ
  get_encoder_left_speed : ℚ
  get_encoder_right_speed : ℚ
  get_gyro_z_radps : ℚ
  get_motor_driver_input_voltage : ℚ
  kp_linear : ℚ
  kd_linear : ℚ
  kp_angular : ℚ
  kd_angular : ℚ
  kp_angular_side : ℚ
  kp_angular_front : ℚ
  kp_angular_diagonal : ℚ
  ki_angular_side : ℚ
  ki_angular_front : ℚ
  ki_angular_diagonal : ℚ
  get_linear_acceleration : ℚ
  get_linear_deceleration : ℚ
  motor_driver_saturation : ℚ
  MAX_MOTOR_DRIVER_SATURATION_PERIOD : ℚ
  SYSTICK_FREQUENCY_HZ : ℚ
  DRIVER_PWM_PERIOD : ℚ

/-- The `static` variables of `control.c`, lines 3-25. -/
structure ControlState where
  target_linear_speed : ℚ
  ideal_linear_speed : ℚ
  ideal_angular_speed : ℚ
  linear_error : ℚ
  angular_error : ℚ
  last_linear_error : ℚ
  last_angular_error : ℚ
  voltage_left : ℚ
  voltage_right : ℚ
  pwm_left : ℤ
  pwm_right : ℤ
  collision_detected_signal : Bool
  motor_control_enabled_signal : Bool
  side_sensors_close_control_enabled : Bool
  side_sensors_far_control_enabled : Bool
  front_sensors_control_enabled : Bool
  diagonal_sensors_control_enabled : Bool
  side_sensors_integral : ℚ
  front_sensors_integral : ℚ
  diagonal_sensors_integral : ℚ

/-- Calls made on the motor-driver collaborator, in program order. -/
inductive DriverCall where
  | powerLeft (pwm : ℤ)
  | powerRight (pwm : ℤ)
  | driveOff
  | resetMotorDriverSaturation
deriving DecidableEq

/-- C `voltage_to_motor_pwm` (control.c:37-40): divide by the supply
voltage read from the driver, scale by `DRIVER_PWM_PERIOD`, and let the
`int32_t` return type truncate toward zero. -/
def voltage_to_motor_pwm (env : Env) (voltage : ℚ) : ℤ :=
  ratTrunc (voltage / env.get_motor_driver_input_voltage * env.DRIVER_PWM_PERIOD)

/-- C `side_sensors_close_control` (control.c:45-48). -/
def side_sensors_close_control (value : Bool) (s : ControlState) : ControlState :=
  { s with side_sensors_close_control_enabled := value }

/-- C `side_sensors_far_control` (control.c:53-56). -/
def side_sensors_far_control (value : Bool) (s : ControlState) : ControlState :=
  { s with side_sensors_far_control_enabled := value }

/-- C `diagonal_sensors_control` (control.c:61-64). -/
def diagonal_sensors_control (value : Bool) (s : ControlState) : ControlState :=
  { s with diagonal_sensors_control_enabled := value }

/-- C `front_sensors_control` (control.c:69-72). -/
def front_sensors_control (value : Bool) (s : ControlState) : ControlState :=
  { s with front_sensors_control_enabled := value }

/-- C `disable_walls_control` (control.c:77-82): disables the close, far
and front loops, in that order (and no other). -/
def disable_walls_control (s : ControlState) : ControlState :=
  front_sensors_control false (side_sensors_far_control false (side_sensors_close_control false s))

/-- C `set_collision_detected` (control.c:89-93). -/
def set_collision_detected (s : ControlState) : ControlState :=
  { s with collision_detected_signal := true, motor_control_enabled_signal := false }

/-- C `collision_detected` (control.c:98-101). -/
def collision_detected (s : ControlState) : Bool :=
  s.collision_detected_signal

/-- C `reset_collision_detection` (control.c:109-113): clears the latch
and asks the driver to clear its saturation counter. -/
def reset_collision_detection (s : ControlState) : ControlState × List DriverCall :=
  ({ s with collision_detected_signal := false }, [DriverCall.resetMotorDriverSaturation])

/-- C `reset_control_errors` (control.c:118-127). -/
def reset_control_errors (s : ControlState) : ControlState :=
  { s with side_sensors_integral := 0, front_sensors_integral := 0,
           diagonal_sensors_integral := 0, linear_error := 0, angular_error := 0,
           last_linear_error := 0, last_angular_error := 0 }

/-- C `reset_control_speed` (control.c:132-137). -/
def reset_control_speed (s : ControlState) : ControlState :=
  { s with target_linear_speed := 0, ideal_linear_speed := 0, ideal_angular_speed := 0 }

/-- C `reset_control_all` (control.c:148-153). -/
def reset_control_all (s : ControlState) : ControlState × List DriverCall :=
  reset_collision_detection (reset_control_speed (reset_control_errors s))

/-- C `enable_motor_control` (control.c:161-164). -/
def enable_motor_control (s : ControlState) : ControlState :=
  { s with motor_control_enabled_signal := true }

/-- C `disable_motor_control` (control.c:172-175). -/
def disable_motor_control (s : ControlState) : ControlState :=
  { s with motor_control_enabled_signal := false }

/-- C `reset_motion` (control.c:185-191): disable motor control, disable
walls control, command `drive_off`, then `reset_control_all`. -/
def reset_motion (s : ControlState) : ControlState × List DriverCall :=
  let s2 := disable_walls_control (disable_motor_control s)
  let r := reset_control_all s2
  (r.1, DriverCall.driveOff :: r.2)

/-- C `get_measured_linear_speed` (control.c:252-255). -/
def get_measured_linear_speed (env : Env) : ℚ :=
  (env.get_encoder_left_speed + env.get_encoder_right_speed) / 2

/-- C `get_measured_angular_speed` (control.c:260-263). -/
def get_measured_angular_speed (env : Env) : ℚ :=
  -env.get_gyro_z_radps

/-- C `set_target_linear_speed` (control.c:268-271). -/
def set_target_linear_speed (speed : ℚ) (s : ControlState) : ControlState :=
  { s with target_linear_speed := speed }

/-- C `set_ideal_angular_speed` (control.c:276-279). -/
def set_ideal_angular_speed (speed : ℚ) (s : ControlState) : ControlState :=
  { s with ideal_angular_speed := speed }

/-- Net value written to `ideal_linear_speed` by the branches of
`update_ideal_linear_speed` (control.c:289-299): below the target, add the
per-tick acceleration step and clamp down to the target; above it,
subtract the per-tick deceleration step and clamp up to the target. -/
def ideal_linear_speed_step (env : Env) (i t : ℚ) : ℚ :=
  if i < t then
    if t < i + env.get_linear_acceleration / env.SYSTICK_FREQUENCY_HZ then t
    else i + env.get_linear_acceleration / env.SYSTICK_FREQUENCY_HZ
  else if t < i then
    if i - env.get_linear_deceleration / env.SYSTICK_FREQUENCY_HZ < t then t
    else i - env.get_linear_deceleration / env.SYSTICK_FREQUENCY_HZ
  else i

/-- C `update_ideal_linear_speed` (control.c:287-300): slew the ideal
linear speed toward the target, clamping at the target; no other
variable is written. -/
def update_ideal_linear_speed (env : Env) (s : ControlState) : ControlState :=
  { s with ideal_linear_speed :=
      ideal_linear_speed_step env s.ideal_linear_speed s.target_linear_speed }

/-- One conditional block of the side-sensors aggregation in
`motor_control` (control.c:325-333): given the running feedback value and
integral, add the error and accumulate the post-update feedback when the
loop is enabled. -/
def side_wall_step (enabled : Bool) (err fb integral : ℚ) : ℚ × ℚ :=
  if enabled then (fb + err, integral + (fb + err)) else (fb, integral)

/-- Final value of the local `side_sensors_feedback` in `motor_control`
(control.c:315, 325-333): close block then far block, starting from 0. -/
def side_sensors_feedback_of (env : Env) (s : ControlState) : ℚ :=
  (side_wall_step s.side_sensors_far_control_enabled env.get_side_sensors_far_error
    (side_wall_step s.side_sensors_close_control_enabled env.get_side_sensors_close_error
      0 s.side_sensors_integral).1
    (side_wall_step s.side_sensors_close_control_enabled env.get_side_sensors_close_error
      0 s.side_sensors_integral).2).1

/-- Value of `side_sensors_integral` after the two side blocks of
`motor_control` (control.c:325-333). -/
def side_sensors_integral_next (env : Env) (s : ControlState) : ℚ :=
  (side_wall_step s.side_sensors_far_control_enabled env.get_side_sensors_far_error
    (side_wall_step s.side_sensors_close_control_enabled env.get_side_sensors_close_error
      0 s.side_sensors_integral).1
    (side_wall_step s.side_sensors_close_control_enabled env.get_side_sensors_close_error
      0 s.side_sensors_integral).2).2

/-- Final value of the local `front_sensors_feedback` (control.c:316, 335-338). -/
def front_sensors_feedback_of (env : Env) (s : ControlState) : ℚ :=
  if s.front_sensors_control_enabled then env.get_front_sensors_error else 0

/-- Value of `front_sensors_integral` after the front block (control.c:335-338). -/
def front_sensors_integral_next (env : Env) (s : ControlState) : ℚ :=
  if s.front_sensors_control_enabled then
    s.front_sensors_integral + env.get_front_sensors_error
  else s.front_sensors_integral

/-- Final value of the local `diagonal_sensors_feedback` (control.c:317, 340-343). -/
def diagonal_sensors_feedback_of (env : Env) (s : ControlState) : ℚ :=
  if s.diagonal_sensors_control_enabled then env.get_diagonal_sensors_error else 0

/-- Value of `diagonal_sensors_integral` after the diagonal block
(control.c:340-343). -/
def diagonal_sensors_integral_next (env : Env) (s : ControlState) : ℚ :=
  if s.diagonal_sensors_control_enabled then
    s.diagonal_sensors_integral + env.get_diagonal_sensors_error
  else s.diagonal_sensors_integral

/-- Value of `linear_error` after control.c:345, on the post-profiler
state: the running sum receives `ideal_linear_speed - measured`. -/
def linear_error_next (env : Env) (s : ControlState) : ℚ :=
  s.linear_error +
    ((update_ideal_linear_speed env s).ideal_linear_speed - get_measured_linear_speed env)

/-- Value of `angular_error` after control.c:346. -/
def angular_error_next (env : Env) (s : ControlState) : ℚ :=
  s.angular_error + (s.ideal_angular_speed - get_measured_angular_speed env)

/-- The local `linear_voltage` computed at control.c:350-351. -/
def linear_voltage_of (env : Env) (s : ControlState) : ℚ :=
  env.kp_linear * linear_error_next env s +
    env.kd_linear * (linear_error_next env s - s.last_linear_error)

/-- The local `angular_voltage` computed at control.c:352-360. -/
def angular_voltage_of (env : Env) (s : ControlState) : ℚ :=
  env.kp_angular * angular_error_next env s +
    env.kd_angular * (angular_error_next env s - s.last_angular_error) +
    env.kp_angular_side * side_sensors_feedback_of env s +
    env.kp_angular_front * front_sensors_feedback_of env s +
    env.kp_angular_diagonal * diagonal_sensors_feedback_of env s +
    env.ki_angular_side * side_sensors_integral_next env s +
    env.ki_angular_front * front_sensors_integral_next env s +
    env.ki_angular_diagonal * diagonal_sensors_integral_next env s

/-- All variables written by the body of an enabled tick of
`motor_control` before the saturation check (control.c:323-371): profile
the speed, run the four wall blocks, update the running error sums,
compute the feedback voltages, split them into left/right, convert both
to PWM, and save the previous errors. -/
def tick_write (env : Env) (s : ControlState) : ControlState :=
  { update_ideal_linear_speed env s with
    side_sensors_integral := side_sensors_integral_next env s,
    front_sensors_integral := front_sensors_integral_next env s,
    diagonal_sensors_integral := diagonal_sensors_integral_next env s,
    linear_error := linear_error_next env s,
    angular_error := angular_error_next env s,
    voltage_left := linear_voltage_of env s + angular_voltage_of env s,
    voltage_right := linear_voltage_of env s - angular_voltage_of env s,
    pwm_left := voltage_to_motor_pwm env (linear_voltage_of env s + angular_voltage_of env s),
    pwm_right := voltage_to_motor_pwm env (linear_voltage_of env s - angular_voltage_of env s),
    last_linear_error := linear_error_next env s,
    last_angular_error := angular_error_next env s }

/-- C `motor_control` (control.c:311-376), one tick: early return when the
master gate is off; otherwise `tick_write` followed by the collision check
against the driver saturation counter, commanding both motors with the
just-computed PWM duties. -/
def motor_control (env : Env) (s : ControlState) : ControlState × List DriverCall :=
  if s.motor_control_enabled_signal = false then (s, [])
  else
    let s2 := tick_write env s
    let s3 :=
      if env.MAX_MOTOR_DRIVER_SATURATION_PERIOD * env.SYSTICK_FREQUENCY_HZ <
          env.motor_driver_saturation
      then set_collision_detected s2
      else s2
    (s3, [DriverCall.powerLeft s2.pwm_left, DriverCall.powerRight s2.pwm_right])

/-- State part of one tick of `motor_control`. -/
def tickStep (env : Env) (s : ControlState) : ControlState :=
  (motor_control env s).1

/-- Collaborator snapshot used by the concrete scenarios: all sensors and
gains at zero, an 8 V supply, a 1 kHz systick, a 1000-count PWM period, a
0.25 s saturation period, and a quiescent saturation counter. -/
def baseEnv : Env :=
  { get_side_sensors_close_error := 0
    get_side_sensors_far_error := 0
    get_front_sensors_error := 0
    get_diagonal_sensors_error := 0
    get_encoder_left_speed := 0
    get_encoder_right_speed := 0
    get_gyro_z_radps := 0
    get_motor_driver_input_voltage := 8
    kp_linear := 0
    kd_linear := 0
    kp_angular := 0
    kd_angular := 0
    kp_angular_side := 0
    kp_angular_front := 0
    kp_angular_diagonal := 0
    ki_angular_side := 0
    ki_angular_front := 0
    ki_angular_diagonal := 0
    get_linear_acceleration := 0
    get_linear_deceleration := 0
    motor_driver_saturation := 0
    MAX_MOTOR_DRIVER_SATURATION_PERIOD := 1/4
    SYSTICK_FREQUENCY_HZ := 1000
    DRIVER_PWM_PERIOD := 1000 }

/-- The initial state of the C translation unit: every `static` variable
is zero-initialised. -/
def zeroState : ControlState :=
  { target_linear_speed := 0
    ideal_linear_speed := 0
    ideal_angular_speed := 0
    linear_error := 0
    angular_error := 0
    last_linear_error := 0
    last_angular_error := 0
    voltage_left := 0
    voltage_right := 0
    pwm_left := 0
    pwm_right := 0
    collision_detected_signal := false
    motor_control_enabled_signal := false
    side_sensors_close_control_enabled := false
    side_sensors_far_control_enabled := false
    front_sensors_control_enabled := false
    diagonal_sensors_control_enabled := false
    side_sensors_integral := 0
    front_sensors_integral := 0
    diagonal_sensors_integral := 0 }

lemma motor_control_of_disabled (env : Env) (s : ControlState)
    (h : s.motor_control_enabled_signal = false) :
    motor_control env s = (s, []) := by
  simp [motor_control, h]

lemma tickStep_of_enabled (env : Env) (s : ControlState)
    (h : s.motor_control_enabled_signal = true) :
    tickStep env s =
      if env.MAX_MOTOR_DRIVER_SATURATION_PERIOD * env.SYSTICK_FREQUENCY_HZ <
          env.motor_driver_saturation
      then set_collision_detected (tick_write env s)
      else tick_write env s := by
  simp [tickStep, motor_control, h]

/-- C4: with `motor_control_enabled` false, a call to `motor_control`
returns the state unchanged in every field and performs no driver call —
no `power_left`, `power_right` or `drive_off`. -/
theorem motor_control_disabled_is_noop (env : Env) (s : ControlState)
    (h : s.motor_control_enabled_signal = false) :
    motor_control env s = (s, []) :=
  motor_control_of_disabled env s h

/-- Witness for C4 at the zero-initialised state, whose gate is off. -/
theorem motor_control_disabled_is_noop_witness :
    zeroState.motor_control_enabled_signal = false ∧
    motor_control baseEnv zeroState = (zeroState, []) :=
  ⟨rfl, motor_control_disabled_is_noop baseEnv zeroState rfl⟩

/-- C10: `reset_collision_detection` clears the collision latch, issues
exactly the saturation-counter reset call on the driver (no power or off
call), and leaves every other control-state field unchanged — in
particular it does not re-enable motor control. -/
theorem reset_collision_detection_frame (s : ControlState) :
    (reset_collision_detection s).1.collision_detected_signal = false ∧
    (reset_collision_detection s).2 = [DriverCall.resetMotorDriverSaturation] ∧
    (reset_collision_detection s).1.motor_control_enabled_signal = s.motor_control_enabled_signal ∧
    (reset_collision_detection s).1.target_linear_speed = s.target_linear_speed ∧
    (reset_collision_detection s).1.ideal_linear_speed = s.ideal_linear_speed ∧
    (reset_collision_detection s).1.ideal_angular_speed = s.ideal_angular_speed ∧
    (reset_collision_detection s).1.linear_error = s.linear_error ∧
    (reset_collision_detection s).1.angular_error = s.angular_error ∧
    (reset_collision_detection s).1.last_linear_error = s.last_linear_error ∧
    (reset_collision_detection s).1.last_angular_error = s.last_angular_error ∧
    (reset_collision_detection s).1.voltage_left = s.voltage_left ∧
    (reset_collision_detection s).1.voltage_right = s.voltage_right ∧
    (reset_collision_detection s).1.pwm_left = s.pwm_left ∧
    (reset_collision_detection s).1.pwm_right = s.pwm_right ∧
    (reset_collision_detection s).1.side_sensors_close_control_enabled = s.side_sensors_close_control_enabled ∧
    (reset_collision_detection s).1.side_sensors_far_control_enabled = s.side_sensors_far_control_enabled ∧
    (reset_collision_detection s).1.front_sensors_control_enabled = s.front_sensors_control_enabled ∧
    (reset_collision_detection s).1.diagonal_sensors_control_enabled = s.diagonal_sensors_control_enabled ∧
    (reset_collision_detection s).1.side_sensors_integral = s.side_sensors_integral ∧
    (reset_collision_detection s).1.front_sensors_integral = s.front_sensors_integral ∧
    (reset_collision_detection s).1.diagonal_sensors_integral = s.diagonal_sensors_integral :=
  ⟨rfl, rfl, rfl, rfl, rfl, rfl, rfl, rfl, rfl, rfl, rfl,
   rfl, rfl, rfl, rfl, rfl, rfl, rfl, rfl, rfl, rfl⟩

/-- C1 as stated is false: `reset_motion` does not disable the diagonal
wall loop. Starting from the zero state with the diagonal loop enabled,
the loop is still enabled after `reset_motion`. -/
theorem reset_motion_keeps_diagonal_enabled :
    ((reset_motion (diagonal_sensors_control true zeroState)).1).diagonal_sensors_control_enabled
      = true := rfl

/-- C1 (amended): after `reset_motion`, motor control is disabled, the
side-close, side-far and front wall loops are disabled while the diagonal
loop's enable flag is left unchanged, `drive_off` was called on the motor
driver, and all error, integral and speed state is zero. -/
theorem reset_motion_spec (s : ControlState) :
    (reset_motion s).1.motor_control_enabled_signal = false ∧
    (reset_motion s).1.side_sensors_close_control_enabled = false ∧
    (reset_motion s).1.side_sensors_far_control_enabled = false ∧
    (reset_motion s).1.front_sensors_control_enabled = false ∧
    (reset_motion s).1.diagonal_sensors_control_enabled = s.diagonal_sensors_control_enabled ∧
    DriverCall.driveOff ∈ (reset_motion s).2 ∧
    (reset_motion s).1.linear_error = 0 ∧
    (reset_motion s).1.angular_error = 0 ∧
    (reset_motion s).1.last_linear_error = 0 ∧
    (reset_motion s).1.last_angular_error = 0 ∧
    (reset_motion s).1.side_sensors_integral = 0 ∧
    (reset_motion s).1.front_sensors_integral = 0 ∧
    (reset_motion s).1.diagonal_sensors_integral = 0 ∧
    (reset_motion s).1.target_linear_speed = 0 ∧
    (reset_motion s).1.ideal_linear_speed = 0 ∧
    (reset_motion s).1.ideal_angular_speed = 0 ∧
    (reset_motion s).1.collision_detected_signal = false :=
  ⟨rfl, rfl, rfl, rfl, rfl, List.mem_cons_self _ _, rfl, rfl, rfl, rfl,
   rfl, rfl, rfl, rfl, rfl, rfl, rfl⟩

lemma ideal_step_of_lt (env : Env) {i t : ℚ} (h : i < t) :
    ideal_linear_speed_step env i t =
      min (i + env.get_linear_acceleration / env.SYSTICK_FREQUENCY_HZ) t := by
  unfold ideal_linear_speed_step
  rw [if_pos h]
  rcases lt_or_le t (i + env.get_linear_acceleration / env.SYSTICK_FREQUENCY_HZ) with h2 | h2
  · rw [if_pos h2, min_eq_right h2.le]
  · rw [if_neg (not_lt.mpr h2), min_eq_left h2]

lemma ideal_step_of_gt (env : Env) {i t : ℚ} (h : t < i) :
    ideal_linear_speed_step env i t =
      max (i - env.get_linear_deceleration / env.SYSTICK_FREQUENCY_HZ) t := by
  unfold ideal_linear_speed_step
  rw [if_neg (not_lt.mpr h.le), if_pos h]
  rcases lt_or_le (i - env.get_linear_deceleration / env.SYSTICK_FREQUENCY_HZ) t with h2 | h2
  · rw [if_pos h2, max_eq_right h2.le]
  · rw [if_neg (not_lt.mpr h2), max_eq_left h2]

lemma ideal_step_of_eq (env : Env) {i t : ℚ} (h : i = t) :
    ideal_linear_speed_step env i t = i := by
  unfold ideal_linear_speed_step
  rw [if_neg (by rw [h]; exact lt_irrefl t), if_neg (by rw [h]; exact lt_irrefl t)]

/-- C5: one profiler step produces `min(I + A_accel/F_TICK, T)` below the
target, `max(I - A_decel/F_TICK, T)` above it, and leaves `I` unchanged at
the target; with nonnegative limits and a positive tick frequency the
ideal speed moves toward the target and never overshoots it. -/
theorem update_ideal_linear_speed_spec (env : Env) (s : ControlState)
    (ha : 0 ≤ env.get_linear_acceleration) (hd : 0 ≤ env.get_linear_deceleration)
    (hf : 0 < env.SYSTICK_FREQUENCY_HZ) :
    (s.ideal_linear_speed < s.target_linear_speed →
      (update_ideal_linear_speed env s).ideal_linear_speed =
        min (s.ideal_linear_speed + env.get_linear_acceleration / env.SYSTICK_FREQUENCY_HZ)
          s.target_linear_speed) ∧
    (s.target_linear_speed < s.ideal_linear_speed →
      (update_ideal_linear_speed env s).ideal_linear_speed =
        max (s.ideal_linear_speed - env.get_linear_deceleration / env.SYSTICK_FREQUENCY_HZ)
          s.target_linear_speed) ∧
    (s.ideal_linear_speed = s.target_linear_speed →
      (update_ideal_linear_speed env s).ideal_linear_speed = s.ideal_linear_speed) ∧
    (s.ideal_linear_speed ≤ s.target_linear_speed →
      s.ideal_linear_speed ≤ (update_ideal_linear_speed env s).ideal_linear_speed ∧
      (update_ideal_linear_speed env s).ideal_linear_speed ≤ s.target_linear_speed) ∧
    (s.target_linear_speed ≤ s.ideal_linear_speed →
      s.target_linear_speed ≤ (update_ideal_linear_speed env s).ideal_linear_speed ∧
      (update_ideal_linear_speed env s).ideal_linear_speed ≤ s.ideal_linear_speed) := by
  have hup : 0 ≤ env.get_linear_acceleration / env.SYSTICK_FREQUENCY_HZ :=
    div_nonneg ha hf.le
  have hdn : 0 ≤ env.get_linear_deceleration / env.SYSTICK_FREQUENCY_HZ :=
    div_nonneg hd hf.le
  have hN : (update_ideal_linear_speed env s).ideal_linear_speed =
      ideal_linear_speed_step env s.ideal_linear_speed s.target_linear_speed := rfl
  refine ⟨?_, ?_, ?_, ?_, ?_⟩
  · intro h; rw [hN, ideal_step_of_lt env h]
  · intro h; rw [hN, ideal_step_of_gt env h]
  · intro h; rw [hN, ideal_step_of_eq env h]
  · intro h
    rcases lt_or_eq_of_le h with h1 | h1
    · rw [hN, ideal_step_of_lt env h1]
      exact ⟨le_min (by linarith) h1.le, min_le_right _ _⟩
    · rw [hN, ideal_step_of_eq env h1]
      exact ⟨le_refl _, h⟩
  · intro h
    rcases lt_or_eq_of_le h with h1 | h1
    · rw [hN, ideal_step_of_gt env h1]
      exact ⟨le_max_right _ _, max_le (by linarith) h⟩
    · rw [hN, ideal_step_of_eq env h1.symm]
      exact ⟨h, le_refl _⟩

/-- Environment of scenario S1: 2 m/s² acceleration and 4 m/s²
deceleration limits over the base environment. -/
def profileEnv : Env :=
  { baseEnv with get_linear_acceleration := 2, get_linear_deceleration := 4 }

/-- Zero state with the planner's target set to 1 m/s. -/
def targetOneState : ControlState :=
  { zeroState with target_linear_speed := 1 }

/-- Witness for C5: accelerating from rest toward 1 m/s with a 2 m/s²
limit at 1 kHz, the step law and the no-overshoot bounds hold. -/
theorem update_ideal_linear_speed_spec_witness :
    (0 : ℚ) ≤ profileEnv.get_linear_acceleration ∧
    (0 : ℚ) ≤ profileEnv.get_linear_deceleration ∧
    (0 : ℚ) < profileEnv.SYSTICK_FREQUENCY_HZ ∧
    (targetOneState.ideal_linear_speed < targetOneState.target_linear_speed →
      (update_ideal_linear_speed profileEnv targetOneState).ideal_linear_speed =
        min (targetOneState.ideal_linear_speed +
            profileEnv.get_linear_acceleration / profileEnv.SYSTICK_FREQUENCY_HZ)
          targetOneState.target_linear_speed) :=
  ⟨by norm_num [profileEnv, baseEnv], by norm_num [profileEnv, baseEnv],
    by norm_num [profileEnv, baseEnv],
    (update_ideal_linear_speed_spec profileEnv targetOneState
      (by norm_num [profileEnv, baseEnv]) (by norm_num [profileEnv, baseEnv])
      (by norm_num [profileEnv, baseEnv])).1⟩

/-- C6: after an enabled tick, the published motor voltages satisfy
`voltage_left + voltage_right = 2·linear_voltage` and
`voltage_left - voltage_right = 2·angular_voltage`, with `linear_voltage`
and `angular_voltage` the values the feedback law computed in that tick. -/
theorem voltage_split_spec (env : Env) (s : ControlState)
    (h : s.motor_control_enabled_signal = true) :
    (tickStep env s).voltage_left + (tickStep env s).voltage_right =
      2 * linear_voltage_of env s ∧
    (tickStep env s).voltage_left - (tickStep env s).voltage_right =
      2 * angular_voltage_of env s := by
  have hL : (tickStep env s).voltage_left =
      linear_voltage_of env s + angular_voltage_of env s := by
    rw [tickStep_of_enabled env s h]; split <;> rfl
  have hR : (tickStep env s).voltage_right =
      linear_voltage_of env s - angular_voltage_of env s := by
    rw [tickStep_of_enabled env s h]; split <;> rfl
  rw [hL, hR]
  exact ⟨by ring, by ring⟩

/-- Witness for C6 at an enabled zero state under the base environment. -/
theorem voltage_split_spec_witness :
    (enable_motor_control zeroState).motor_control_enabled_signal = true ∧
    ((tickStep baseEnv (enable_motor_control zeroState)).voltage_left +
        (tickStep baseEnv (enable_motor_control zeroState)).voltage_right =
      2 * linear_voltage_of baseEnv (enable_motor_control zeroState) ∧
    (tickStep baseEnv (enable_motor_control zeroState)).voltage_left -
        (tickStep baseEnv (enable_motor_control zeroState)).voltage_right =
      2 * angular_voltage_of baseEnv (enable_motor_control zeroState)) :=
  ⟨rfl, voltage_split_spec baseEnv (enable_motor_control zeroState) rfl⟩

/-- Base environment with the saturation counter reading exactly the
threshold `MAX_MOTOR_DRIVER_SATURATION_PERIOD · F_TICK` = 0.25 · 1000. -/
def satThresholdEnv : Env :=
  { baseEnv with motor_driver_saturation := 250 }

/-- Base environment with the saturation counter one above the threshold. -/
def satOverEnv : Env :=
  { baseEnv with motor_driver_saturation := 251 }

/-- C3 as stated is false: the collision check uses a strict comparison,
so a saturation reading exactly equal to
`MAX_MOTOR_DRIVER_SATURATION_PERIOD · F_TICK` (here 0.25 s · 1000 Hz =
250) does not latch a collision and leaves motor control enabled. -/
theorem collision_not_latched_at_threshold :
    satThresholdEnv.motor_driver_saturation ≥
      satThresholdEnv.MAX_MOTOR_DRIVER_SATURATION_PERIOD *
        satThresholdEnv.SYSTICK_FREQUENCY_HZ ∧
    collision_detected
      (tickStep satThresholdEnv (enable_motor_control zeroState)) = false ∧
    (tickStep satThresholdEnv
        (enable_motor_control zeroState)).motor_control_enabled_signal = true := by
  refine ⟨by norm_num [satThresholdEnv, baseEnv], ?_, ?_⟩ <;>
    rw [tickStep_of_enabled _ _ rfl, if_neg (by norm_num [satThresholdEnv, baseEnv])] <;> rfl

/-- C3 (amended): if during an enabled tick the saturation counter reads
strictly greater than `MAX_MOTOR_DRIVER_SATURATION_PERIOD · F_TICK`, then
after that tick `collision_detected` is true and motor control is off. -/
theorem collision_latch_spec (env : Env) (s : ControlState)
    (he : s.motor_control_enabled_signal = true)
    (hs : env.MAX_MOTOR_DRIVER_SATURATION_PERIOD * env.SYSTICK_FREQUENCY_HZ <
      env.motor_driver_saturation) :
    collision_detected (tickStep env s) = true ∧
    (tickStep env s).motor_control_enabled_signal = false := by
  rw [tickStep_of_enabled env s he, if_pos hs]
  exact ⟨rfl, rfl⟩

/-- Witness for C3 (amended): a 251-tick saturation reading against the
250-tick threshold latches the collision and kills the gate. -/
theorem collision_latch_spec_witness :
    (enable_motor_control zeroState).motor_control_enabled_signal = true ∧
    satOverEnv.MAX_MOTOR_DRIVER_SATURATION_PERIOD * satOverEnv.SYSTICK_FREQUENCY_HZ <
      satOverEnv.motor_driver_saturation ∧
    (collision_detected (tickStep satOverEnv (enable_motor_control zeroState)) = true ∧
      (tickStep satOverEnv
          (enable_motor_control zeroState)).motor_control_enabled_signal = false) :=
  ⟨rfl, by norm_num [satOverEnv, baseEnv],
    collision_latch_spec satOverEnv (enable_motor_control zeroState) rfl
      (by norm_num [satOverEnv, baseEnv])⟩

/-- C9: the tick is gated only on `motor_control_enabled`, never on the
collision latch: enabling motor control while the latch is still set
makes the next tick run fully — it commands both motors — and the latch
stays true. -/
theorem motor_control_not_gated_on_collision (env : Env) (s : ControlState)
    (hc : s.collision_detected_signal = true) :
    (motor_control env (enable_motor_control s)).2 =
      [DriverCall.powerLeft (tick_write env (enable_motor_control s)).pwm_left,
       DriverCall.powerRight (tick_write env (enable_motor_control s)).pwm_right] ∧
    collision_detected (motor_control env (enable_motor_control s)).1 = true := by
  constructor
  · rfl
  · have h1 : (motor_control env (enable_motor_control s)).1 =
        tickStep env (enable_motor_control s) := rfl
    rw [h1, tickStep_of_enabled _ _ rfl]
    split
    · rfl
    · exact hc

/-- Witness for C9: after a latched collision at the zero state,
re-enabling and ticking commands the motors with the latch still set. -/
theorem motor_control_not_gated_on_collision_witness :
    (set_collision_detected zeroState).collision_detected_signal = true ∧
    ((motor_control baseEnv (enable_motor_control (set_collision_detected zeroState))).2 =
      [DriverCall.powerLeft
        (tick_write baseEnv (enable_motor_control (set_collision_detected zeroState))).pwm_left,
       DriverCall.powerRight
        (tick_write baseEnv (enable_motor_control (set_collision_detected zeroState))).pwm_right] ∧
    collision_detected
      (motor_control baseEnv (enable_motor_control (set_collision_detected zeroState))).1 = true) :=
  ⟨rfl, motor_control_not_gated_on_collision baseEnv (set_collision_detected zeroState) rfl⟩

lemma tickStep_side_integral (env : Env) (s : ControlState)
    (h : s.motor_control_enabled_signal = true) :
    (tickStep env s).side_sensors_integral = side_sensors_integral_next env s := by
  rw [tickStep_of_enabled env s h]; split <;> rfl

lemma tickStep_front_integral (env : Env) (s : ControlState)
    (h : s.motor_control_enabled_signal = true) :
    (tickStep env s).front_sensors_integral = front_sensors_integral_next env s := by
  rw [tickStep_of_enabled env s h]; split <;> rfl

lemma tickStep_diagonal_integral (env : Env) (s : ControlState)
    (h : s.motor_control_enabled_signal = true) :
    (tickStep env s).diagonal_sensors_integral = diagonal_sensors_integral_next env s := by
  rw [tickStep_of_enabled env s h]; split <;> rfl

lemma tickStep_wall_flags (env : Env) (s : ControlState)
    (h : s.motor_control_enabled_signal = true) :
    (tickStep env s).side_sensors_close_control_enabled =
        s.side_sensors_close_control_enabled ∧
    (tickStep env s).side_sensors_far_control_enabled =
        s.side_sensors_far_control_enabled ∧
    (tickStep env s).front_sensors_control_enabled = s.front_sensors_control_enabled ∧
    (tickStep env s).diagonal_sensors_control_enabled =
        s.diagonal_sensors_control_enabled := by
  rw [tickStep_of_enabled env s h]; split <;> exact ⟨rfl, rfl, rfl, rfl⟩

lemma tickStep_stays_enabled (env : Env) (s : ControlState)
    (h : s.motor_control_enabled_signal = true)
    (hsat : ¬ env.MAX_MOTOR_DRIVER_SATURATION_PERIOD * env.SYSTICK_FREQUENCY_HZ <
      env.motor_driver_saturation) :
    (tickStep env s).motor_control_enabled_signal = true := by
  rw [tickStep_of_enabled env s h, if_neg hsat]; exact h

/-- Base environment with a unit side-far sensor error. -/
def farOnlyEnv : Env := { baseEnv with get_side_sensors_far_error := 1 }

/-- Enabled zero state with only the side-far wall loop switched on. -/
def farOnlyState : ControlState :=
  side_sensors_far_control true (enable_motor_control zeroState)

/-- C7 as stated is false: the side-close and side-far loops share one
integral accumulator. With side-close disabled but side-far enabled and a
unit far error, the tick changes the accumulator of the (disabled)
side-close loop. -/
theorem side_close_disabled_integral_changes :
    farOnlyState.side_sensors_close_control_enabled = false ∧
    (tickStep farOnlyEnv farOnlyState).side_sensors_integral ≠
      farOnlyState.side_sensors_integral := by
  refine ⟨rfl, ?_⟩
  rw [tickStep_side_integral _ _ rfl]
  norm_num [side_sensors_integral_next, side_wall_step, farOnlyEnv, farOnlyState,
    side_sensors_far_control, enable_motor_control, zeroState, baseEnv]

/-- C7 (amended): during an enabled tick, a disabled front or diagonal
loop contributes zero feedback and leaves its integral unchanged; a
disabled side loop contributes nothing to the side feedback term, but the
shared side integral is only guaranteed unchanged when both side loops
are disabled. -/
theorem wall_loop_disabled_frame (env : Env) (s : ControlState)
    (he : s.motor_control_enabled_signal = true) :
    (s.front_sensors_control_enabled = false →
      front_sensors_feedback_of env s = 0 ∧
      (tickStep env s).front_sensors_integral = s.front_sensors_integral) ∧
    (s.diagonal_sensors_control_enabled = false →
      diagonal_sensors_feedback_of env s = 0 ∧
      (tickStep env s).diagonal_sensors_integral = s.diagonal_sensors_integral) ∧
    (s.side_sensors_close_control_enabled = false →
      s.side_sensors_far_control_enabled = false →
      side_sensors_feedback_of env s = 0 ∧
      (tickStep env s).side_sensors_integral = s.side_sensors_integral) ∧
    (s.side_sensors_close_control_enabled = false →
      side_sensors_feedback_of env s =
        if s.side_sensors_far_control_enabled then env.get_side_sensors_far_error else 0) ∧
    (s.side_sensors_far_control_enabled = false →
      side_sensors_feedback_of env s =
        if s.side_sensors_close_control_enabled then env.get_side_sensors_close_error
        else 0) := by
  refine ⟨fun hfr => ⟨?_, ?_⟩, fun hdg => ⟨?_, ?_⟩, fun hc hf => ⟨?_, ?_⟩, fun hc => ?_,
    fun hf => ?_⟩
  · simp [front_sensors_feedback_of, hfr]
  · rw [tickStep_front_integral env s he]
    simp [front_sensors_integral_next, hfr]
  · simp [diagonal_sensors_feedback_of, hdg]
  · rw [tickStep_diagonal_integral env s he]
    simp [diagonal_sensors_integral_next, hdg]
  · simp [side_sensors_feedback_of, side_wall_step, hc, hf]
  · rw [tickStep_side_integral env s he]
    simp [side_sensors_integral_next, side_wall_step, hc, hf]
  · by_cases hfar : s.side_sensors_far_control_enabled = true <;>
      simp [side_sensors_feedback_of, side_wall_step, hc, hfar]
  · by_cases hcl : s.side_sensors_close_control_enabled = true <;>
      simp [side_sensors_feedback_of, side_wall_step, hf, hcl]

/-- Witness for C7 (amended) at an enabled zero state, all loops off. -/
theorem wall_loop_disabled_frame_witness :
    (enable_motor_control zeroState).motor_control_enabled_signal = true ∧
    ((enable_motor_control zeroState).front_sensors_control_enabled = false →
      front_sensors_feedback_of baseEnv (enable_motor_control zeroState) = 0 ∧
      (tickStep baseEnv (enable_motor_control zeroState)).front_sensors_integral =
        (enable_motor_control zeroState).front_sensors_integral) :=
  ⟨rfl, (wall_loop_disabled_frame baseEnv (enable_motor_control zeroState) rfl).1⟩

lemma side_integral_growth (env : Env)
    (hsat : ¬ env.MAX_MOTOR_DRIVER_SATURATION_PERIOD * env.SYSTICK_FREQUENCY_HZ <
      env.motor_driver_saturation) :
    ∀ (N : ℕ) (s : ControlState),
      s.motor_control_enabled_signal = true →
      s.side_sensors_close_control_enabled = true →
      s.side_sensors_far_control_enabled = false →
      ((tickStep env)^[N] s).side_sensors_integral =
        s.side_sensors_integral + N * env.get_side_sensors_close_error := by
  intro N
  induction N with
  | zero => intro s _ _ _; simp
  | succ n ih =>
    intro s hs hc hf
    rw [Function.iterate_succ_apply]
    have hflags := tickStep_wall_flags env s hs
    rw [ih (tickStep env s) (tickStep_stays_enabled env s hs hsat)
      (by rw [hflags.1, hc]) (by rw [hflags.2.1, hf])]
    rw [tickStep_side_integral env s hs]
    have hstep : side_sensors_integral_next env s =
        s.side_sensors_integral + env.get_side_sensors_close_error := by
      simp [side_sensors_integral_next, side_wall_step, hc, hf]
    rw [hstep]
    push_cast
    ring

/-- Base environment with a constant 0.01 side-close sensor error. -/
def closeOnlyEnv : Env := { baseEnv with get_side_sensors_close_error := 1/100 }

/-- Enabled zero state with only the side-close wall loop switched on. -/
def closeOnlyState : ControlState :=
  side_sensors_close_control true (enable_motor_control zeroState)

/-- C2 as stated is false: with only side-close enabled and a constant
0.01 error, the integral after 10 ticks is 0.10, not 0.01·10·11/2 = 0.55.
Each tick's addition is of the post-update feedback of that tick, but the
feedback local is reinitialised to zero on every tick, so the growth is
linear, not quadratic. -/
theorem side_integral_not_quadratic_at_ten :
    ((tickStep closeOnlyEnv)^[10] closeOnlyState).side_sensors_integral ≠
      (1/100 : ℚ) * 10 * 11 / 2 := by
  rw [side_integral_growth closeOnlyEnv (by norm_num [closeOnlyEnv, baseEnv]) 10
    closeOnlyState rfl rfl rfl]
  norm_num [closeOnlyEnv, closeOnlyState, side_sensors_close_control,
    enable_motor_control, zeroState, baseEnv]

/-- C2 (amended): with only the side-close loop enabled and
`get_side_sensors_close_error()` constant at 0.01, after N ticks from a
zero integral (and a quiescent saturation counter) the side integral is
0.01·N; in particular the value at N = 10 is 0.10. -/
theorem side_integral_growth_spec (env : Env) (s : ControlState) (N : ℕ)
    (he : s.motor_control_enabled_signal = true)
    (hc : s.side_sensors_close_control_enabled = true)
    (hf : s.side_sensors_far_control_enabled = false)
    (hsat : ¬ env.MAX_MOTOR_DRIVER_SATURATION_PERIOD * env.SYSTICK_FREQUENCY_HZ <
      env.motor_driver_saturation)
    (hi : s.side_sensors_integral = 0)
    (herr : env.get_side_sensors_close_error = 1/100) :
    ((tickStep env)^[N] s).side_sensors_integral = N * (1/100 : ℚ) := by
  rw [side_integral_growth env hsat N s he hc hf, hi, herr, zero_add]

/-- Witness for C2 (amended): ten ticks under a constant 0.01 close error
put the side integral at 10·0.01 = 0.10. -/
theorem side_integral_growth_spec_witness :
    closeOnlyState.motor_control_enabled_signal = true ∧
    closeOnlyState.side_sensors_close_control_enabled = true ∧
    closeOnlyState.side_sensors_far_control_enabled = false ∧
    ¬ closeOnlyEnv.MAX_MOTOR_DRIVER_SATURATION_PERIOD * closeOnlyEnv.SYSTICK_FREQUENCY_HZ <
        closeOnlyEnv.motor_driver_saturation ∧
    closeOnlyState.side_sensors_integral = 0 ∧
    closeOnlyEnv.get_side_sensors_close_error = 1/100 ∧
    ((tickStep closeOnlyEnv)^[10] closeOnlyState).side_sensors_integral =
      (10 : ℕ) * (1/100 : ℚ) :=
  ⟨rfl, rfl, rfl, by norm_num [closeOnlyEnv, baseEnv], rfl, rfl,
    side_integral_growth_spec closeOnlyEnv closeOnlyState 10 rfl rfl rfl
      (by norm_num [closeOnlyEnv, baseEnv]) rfl rfl⟩

/-- Formula of the spec, on its own terms: `pwm = v / V_supply ·
DRIVER_PWM_PERIOD`, rounded toward zero to a signed integer. -/
def pwm_of_voltage_formula (v supply period : ℚ) : ℤ :=
  ratTrunc (v / supply * period)

/-- Base environment with the supply voltage sagged from 8 V to 4 V. -/
def halfSupplyEnv : Env := { baseEnv with get_motor_driver_input_voltage := 4 }

/-- C8: the voltage-to-PWM conversion is the spec's supply-normalised
formula truncated toward zero; concretely 4 V on an 8 V supply with a
1000-count period gives 500, the same command on a 4 V supply gives 1000,
and fractional results truncate toward zero on both signs. -/
theorem voltage_to_motor_pwm_spec :
    (∀ (env : Env) (v : ℚ), voltage_to_motor_pwm env v =
      pwm_of_voltage_formula v env.get_motor_driver_input_voltage env.DRIVER_PWM_PERIOD) ∧
    voltage_to_motor_pwm baseEnv 4 = 500 ∧
    voltage_to_motor_pwm halfSupplyEnv 4 = 1000 ∧
    voltage_to_motor_pwm baseEnv (1/3) = 41 ∧
    voltage_to_motor_pwm baseEnv (-1/3) = -41 := by
  refine ⟨fun env v => rfl, ?_, ?_, ?_, ?_⟩ <;>
    norm_num [voltage_to_motor_pwm, ratTrunc, baseEnv, halfSupplyEnv, Int.ceil_neg]

end Mmlib
